import Mathlib

/-!
Verification development for the Reddit User MCP gateway
(src/src/index.ts).  The file shallowly embeds the single TypeScript
source file: the JSON values exchanged with the backend, the axios HTTP
layer, the `RedditAPIClient` class, and the nine tool handlers
registered by `createServer`.  Each tool invocation is modelled as a
pure function from the tool arguments and the behaviour of the backend (one
`HttpOutcome` per invocation, since every handler performs exactly one
outbound call) to the pair of the outbound `HttpRequest` it issues and
the `ToolResult` it returns.
-/

namespace RedditUserMcp

/-- Model of the JavaScript/JSON values flowing through the gateway.
Numbers are restricted to integers (all numeric values the gateway
handles — limits, scores, timestamps — are integral). -/
inductive Json where
  | null : Json
  | bool (b : Bool) : Json
  | num (n : Int) : Json
  | str (s : String) : Json
  | arr (xs : List Json) : Json
  | obj (kvs : List (String × Json)) : Json
deriving Repr, Inhabited

/-- JavaScript truthiness of a value (`if (v)`).  `undefined` is
represented by `Option.none` at use sites, never by a `Json` value. -/
def truthy : Json → Bool
  | Json.null => false
  | Json.bool b => b
  | Json.num n => n ≠ 0
  | Json.str s => s ≠ ""
  | Json.arr _ => true
  | Json.obj _ => true

/-- JavaScript `x || d` for a possibly-undefined `x` (`none` =
`undefined`): returns `x` when it is present and truthy, else `d`. -/
def jsOrElse (x : Option Json) (d : Json) : Json :=
  match x with
  | some v => if truthy v then v else d
  | none => d

/-- JavaScript property access `v[k]`.  On an object it yields the
property (or `undefined`, modelled as `none`); on `null` it throws a
`TypeError`; on other primitives and arrays it yields `undefined`
(no property of that name exists on the values the backend sends). -/
def jsFieldAccess : Json → String → Except String (Option Json)
  | Json.null, k =>
      Except.error ("TypeError: Cannot read properties of null (reading \x27" ++ k ++ "\x27)")
  | Json.obj kvs, k => Except.ok (kvs.lookup k)
  | _, _ => Except.ok none

mutual

/-- JavaScript `String(v)` as used by template literals: strings are
unquoted, arrays join their elements with commas, objects display as
`[object Object]`. -/
def jsToString : Json → String
  | Json.null => "null"
  | Json.bool b => if b then "true" else "false"
  | Json.num n => toString n
  | Json.str s => s
  | Json.arr xs => String.intercalate "," (jsToStringList xs)
  | Json.obj _ => "[object Object]"

/-- Elements of an array under `Array.prototype.join`: `null` renders
as the empty string. -/
def jsToStringList : List Json → List String
  | [] => []
  | Json.null :: xs => "" :: jsToStringList xs
  | x :: xs => jsToString x :: jsToStringList xs

end

/-- Hexadecimal digit for `\u` escapes. -/
def hexDigit (n : Nat) : String :=
  if n < 10 then toString n
  else if n = 10 then "a"
  else if n = 11 then "b"
  else if n = 12 then "c"
  else if n = 13 then "d"
  else if n = 14 then "e"
  else "f"

/-- JSON string escaping of one character, as `JSON.stringify` does. -/
def escapeJsonChar (c : Char) : String :=
  if c = '"' then "\\\""
  else if c = '\\' then "\\\\"
  else if c = '\n' then "\\n"
  else if c = '\r' then "\\r"
  else if c = '\t' then "\\t"
  else if c.toNat = 8 then "\\b"
  else if c.toNat = 12 then "\\f"
  else if c.toNat < 32 then "\\u00" ++ hexDigit (c.toNat / 16) ++ hexDigit (c.toNat % 16)
  else String.singleton c

/-- Quoted JSON serialization of a string. -/
def quoteJsonString (s : String) : String :=
  "\"" ++ String.join (s.data.map escapeJsonChar) ++ "\""

mutual

/-- Model of `JSON.stringify(v, null, 2)` at nesting indentation `ind`:
empty arrays and objects render inline, non-empty ones put each entry
on its own line indented two further spaces. -/
def stringifyGo (ind : String) : Json → String
  | Json.null => "null"
  | Json.bool b => if b then "true" else "false"
  | Json.num n => toString n
  | Json.str s => quoteJsonString s
  | Json.arr [] => "[]"
  | Json.arr (x :: xs) =>
      "[\n" ++ String.intercalate ",\n" (stringifyArrGo (ind ++ "  ") (x :: xs))
        ++ "\n" ++ ind ++ "]"
  | Json.obj [] => "\x7b\x7d"
  | Json.obj (kv :: kvs) =>
      "\x7b\n" ++ String.intercalate ",\n" (stringifyObjGo (ind ++ "  ") (kv :: kvs))
        ++ "\n" ++ ind ++ "\x7d"

/-- Array entries of `JSON.stringify`, each prefixed by its indentation. -/
def stringifyArrGo (ind : String) : List Json → List String
  | [] => []
  | x :: xs => (ind ++ stringifyGo ind x) :: stringifyArrGo ind xs

/-- Object entries of `JSON.stringify`, rendered `"key": value`. -/
def stringifyObjGo (ind : String) : List (String × Json) → List String
  | [] => []
  | (k, v) :: kvs => (ind ++ quoteJsonString k ++ ": " ++ stringifyGo ind v) :: stringifyObjGo ind kvs

end

/-- The gateway's output serialization `JSON.stringify(v, null, 2)`. -/
def jsonStringify (j : Json) : String :=
  stringifyGo "" j

/-- HTTP method of an outbound request. -/
inductive Method where
  | get : Method
  | post : Method
deriving Repr, DecidableEq

/-- One outbound HTTP request as the axios instance issues it.  Query
parameters keep the `undefined` marker (`none`) of optional arguments:
axios drops those entries when serializing the query string. -/
structure HttpRequest where
  method : Method
  baseURL : String
  path : String
  params : List (String × Option Json)
  body : Option Json
  headers : List (String × String)
deriving Repr

/-- Behaviour of the backend on the single request an invocation
issues: either an HTTP response (any status) or a transport-level
failure carrying its stringified error (e.g. connection refused). -/
inductive HttpOutcome where
  | response (status : Nat) (body : Json) : HttpOutcome
  | transportError (err : String) : HttpOutcome
deriving Repr

/-- Stringification of the error axios throws on a non-2xx status. -/
def axiosErrorString (status : Nat) : String :=
  "AxiosError: Request failed with status code " ++ toString status

/-- Axios semantics of awaiting the request: a 2xx response resolves
with its body as `response.data`; any other status rejects with an
`AxiosError`; a transport failure rejects with that error.  The
`String` on the error side is the stringification `\x24\x7berror\x7d`
a template literal would produce. -/
def axiosRun : HttpOutcome → Except String Json
  | HttpOutcome.response status body =>
      if 200 ≤ status ∧ status < 300 then Except.ok body
      else Except.error (axiosErrorString status)
  | HttpOutcome.transportError err => Except.error err

/-- The `RedditAPIClient` class: the constructor stores the access
token and base URL and creates an axios instance carrying the
`Authorization` and `Content-Type` headers on every call. -/
structure RedditAPIClient where
  accessToken : String
  apiBaseUrl : String
deriving Repr

namespace RedditAPIClient

/-- Headers configured on the axios instance in the constructor. -/
def instanceHeaders (c : RedditAPIClient) : List (String × String) :=
  [("Authorization", "Bearer " ++ c.accessToken),
   ("Content-Type", "application/json")]

/-- A GET request through the axios instance with query params. -/
def getRequest (c : RedditAPIClient) (path : String)
    (params : List (String × Option Json)) : HttpRequest :=
  { method := Method.get, baseURL := c.apiBaseUrl, path := path,
    params := params, body := none, headers := c.instanceHeaders }

/-- A POST request through the axios instance with a JSON body. -/
def postRequest (c : RedditAPIClient) (path : String) (body : Json) : HttpRequest :=
  { method := Method.post, baseURL := c.apiBaseUrl, path := path,
    params := [], body := some body, headers := c.instanceHeaders }

/-- Request issued by `getUserPosts(username?, limit = 25)`. -/
def getUserPostsRequest (c : RedditAPIClient) (username : Option String)
    (limit : Int) : HttpRequest :=
  c.getRequest "/api/reddit/mcp/user-posts"
    [("username", username.map Json.str), ("limit", some (Json.num limit))]

/-- Result of `getUserPosts`: returns `response.data` unchanged and
propagates any rejection of the awaited call. -/
def getUserPostsResult (o : HttpOutcome) : Except String Json :=
  axiosRun o

/-- Request issued by `getUserComments(username?, limit = 25)`. -/
def getUserCommentsRequest (c : RedditAPIClient) (username : Option String)
    (limit : Int) : HttpRequest :=
  c.getRequest "/api/reddit/mcp/user-comments"
    [("username", username.map Json.str), ("limit", some (Json.num limit))]

/-- Result of `getUserComments`: `response.data`, rejections propagate. -/
def getUserCommentsResult (o : HttpOutcome) : Except String Json :=
  axiosRun o

/-- Request issued by `getPostComments(postId, subreddit?)`. -/
def getPostCommentsRequest (c : RedditAPIClient) (postId : String)
    (subreddit : Option String) : HttpRequest :=
  c.getRequest "/api/reddit/mcp/post-comments"
    [("postId", some (Json.str postId)), ("subreddit", subreddit.map Json.str)]

/-- Result of `getPostComments`: `response.data`, rejections propagate. -/
def getPostCommentsResult (o : HttpOutcome) : Except String Json :=
  axiosRun o

/-- Request issued by `hideComment(commentId)`. -/
def hideCommentRequest (c : RedditAPIClient) (commentId : String) : HttpRequest :=
  c.postRequest "/api/reddit/mcp/hide-comment"
    (Json.obj [("commentId", Json.str commentId)])

/-- Result of `hideComment`: `true` on any resolved call, and the
`try/catch` converts every rejection to `false` — the method never
raises, which the total `Bool` return type exhibits. -/
def hideCommentResult (o : HttpOutcome) : Bool :=
  match axiosRun o with
  | Except.ok _ => true
  | Except.error _ => false

/-- Request issued by `replyToComment(commentId, text)`. -/
def replyToCommentRequest (c : RedditAPIClient) (commentId text : String) : HttpRequest :=
  c.postRequest "/api/reddit/mcp/reply-comment"
    (Json.obj [("commentId", Json.str commentId), ("text", Json.str text)])

/-- Result of `replyToComment`: `response.data.replyId || null`, with
the `try/catch` converting every rejection (including a `TypeError`
from the property access) to `null`; the method never raises.
`Json.null` models the returned `null`. -/
def replyToCommentResult (o : HttpOutcome) : Json :=
  match axiosRun o with
  | Except.error _ => Json.null
  | Except.ok d =>
      match jsFieldAccess d "replyId" with
      | Except.error _ => Json.null
      | Except.ok f => jsOrElse f Json.null

/-- Request issued by `postComment(postId, text)`. -/
def postCommentRequest (c : RedditAPIClient) (postId text : String) : HttpRequest :=
  c.postRequest "/api/reddit/mcp/post-comment"
    (Json.obj [("postId", Json.str postId), ("text", Json.str text)])

/-- Result of `postComment`: `response.data.commentId || null`, with
every rejection caught and converted to `null`; never raises. -/
def postCommentResult (o : HttpOutcome) : Json :=
  match axiosRun o with
  | Except.error _ => Json.null
  | Except.ok d =>
      match jsFieldAccess d "commentId" with
      | Except.error _ => Json.null
      | Except.ok f => jsOrElse f Json.null

/-- Request issued by `getHotPosts(subreddit, limit = 25)`. -/
def getHotPostsRequest (c : RedditAPIClient) (subreddit : String)
    (limit : Int) : HttpRequest :=
  c.postRequest "/api/reddit/mcp/hot-posts"
    (Json.obj [("subreddit", Json.str subreddit), ("limit", Json.num limit)])

/-- Result of `getHotPosts`: `response.data.posts || []` on a resolved
call; the `catch` block logs and rethrows, so every failure
propagates. -/
def getHotPostsResult (o : HttpOutcome) : Except String Json :=
  match axiosRun o with
  | Except.error e => Except.error e
  | Except.ok d =>
      match jsFieldAccess d "posts" with
      | Except.error e => Except.error e
      | Except.ok f => Except.ok (jsOrElse f (Json.arr []))

/-- Request issued by `getNewPosts(subreddit, limit = 25)`. -/
def getNewPostsRequest (c : RedditAPIClient) (subreddit : String)
    (limit : Int) : HttpRequest :=
  c.postRequest "/api/reddit/mcp/new-posts"
    (Json.obj [("subreddit", Json.str subreddit), ("limit", Json.num limit)])

/-- Result of `getNewPosts`: `response.data.posts || []`, failures
rethrown. -/
def getNewPostsResult (o : HttpOutcome) : Except String Json :=
  match axiosRun o with
  | Except.error e => Except.error e
  | Except.ok d =>
      match jsFieldAccess d "posts" with
      | Except.error e => Except.error e
      | Except.ok f => Except.ok (jsOrElse f (Json.arr []))

/-- Request issued by `getRisingPosts(subreddit, limit = 25)`. -/
def getRisingPostsRequest (c : RedditAPIClient) (subreddit : String)
    (limit : Int) : HttpRequest :=
  c.postRequest "/api/reddit/mcp/rising-posts"
    (Json.obj [("subreddit", Json.str subreddit), ("limit", Json.num limit)])

/-- Result of `getRisingPosts`: `response.data.posts || []`, failures
rethrown. -/
def getRisingPostsResult (o : HttpOutcome) : Except String Json :=
  match axiosRun o with
  | Except.error e => Except.error e
  | Except.ok d =>
      match jsFieldAccess d "posts" with
      | Except.error e => Except.error e
      | Except.ok f => Except.ok (jsOrElse f (Json.arr []))

end RedditAPIClient

/-- The tool result envelope: always a single text content block, and
an `isError` flag that success paths of the `get_*` handlers leave
unset (`none`) while the mutation handlers always set it. -/
structure ToolResult where
  text : String
  isError : Option Bool
deriving Repr, DecidableEq

/-- Fixed backend base URL hard-coded in `createServer`. -/
def serverBaseURL : String := "https://reddable.vercel.app"

/-- The client `createServer` constructs from the single configuration
credential `config.REDDABLE_API_KEY`. -/
def serverClient (key : String) : RedditAPIClient :=
  { accessToken := key, apiBaseUrl := serverBaseURL }

/-!
The nine tool handlers.  Each invocation is a pure function of the
configuration key, the (zod-validated) arguments, and the behaviour
`o` of the backend on the one request the handler issues; it returns the
pair of that outbound request and the `ToolResult`.  Returning exactly
one `HttpRequest` per invocation embeds the fact that every handler
performs exactly one outbound call, with no retry.  Arguments declared
optional in the input schema arrive as `Option`; the destructuring
default `limit = 25` of the handlers is `Option.getD 25` (the zod
`.default(25)` and the client-side default agree with it). -/

/-- Handler of the `get_user_posts` tool. -/
def get_user_posts (key : String) (username : Option String) (limit : Option Int)
    (o : HttpOutcome) : HttpRequest × ToolResult :=
  ((serverClient key).getUserPostsRequest username (limit.getD 25),
    match RedditAPIClient.getUserPostsResult o with
    | Except.ok posts => { text := jsonStringify posts, isError := none }
    | Except.error e =>
        { text := "Error fetching user posts: " ++ e, isError := some true })

/-- Handler of the `get_user_comments` tool. -/
def get_user_comments (key : String) (username : Option String) (limit : Option Int)
    (o : HttpOutcome) : HttpRequest × ToolResult :=
  ((serverClient key).getUserCommentsRequest username (limit.getD 25),
    match RedditAPIClient.getUserCommentsResult o with
    | Except.ok comments => { text := jsonStringify comments, isError := none }
    | Except.error e =>
        { text := "Error fetching user comments: " ++ e, isError := some true })

/-- Handler of the `get_post_comments` tool. -/
def get_post_comments (key postId : String) (subreddit : Option String)
    (o : HttpOutcome) : HttpRequest × ToolResult :=
  ((serverClient key).getPostCommentsRequest postId subreddit,
    match RedditAPIClient.getPostCommentsResult o with
    | Except.ok comments => { text := jsonStringify comments, isError := none }
    | Except.error e =>
        { text := "Error fetching post comments: " ++ e, isError := some true })

/-- Handler of the `hide_comment` tool.  The client method never
raises, so the `catch` branch of the handler is unreachable and the
result comes from the `success` boolean alone. -/
def hide_comment (key commentId : String) (o : HttpOutcome) : HttpRequest × ToolResult :=
  let req := (serverClient key).hideCommentRequest commentId
  let success := RedditAPIClient.hideCommentResult o
  (req,
    { text :=
        if success then "Successfully hid comment " ++ commentId
        else "Failed to hide comment " ++ commentId,
      isError := some (!success) })

/-- Handler of the `reply_to_comment` tool.  The client method never
raises; the handler branches on the truthiness of the returned
`replyId` (`string | null`). -/
def reply_to_comment (key commentId text : String) (o : HttpOutcome) :
    HttpRequest × ToolResult :=
  let req := (serverClient key).replyToCommentRequest commentId text
  let replyId := RedditAPIClient.replyToCommentResult o
  (req,
    { text :=
        if truthy replyId then
          "Successfully replied to comment " ++ commentId ++ ". Reply ID: "
            ++ jsToString replyId
        else "Failed to reply to comment " ++ commentId,
      isError := some (!truthy replyId) })

/-- Handler of the `post_comment` tool.  The client method never
raises; the handler branches on the truthiness of the returned
`commentId`. -/
def post_comment (key postId text : String) (o : HttpOutcome) :
    HttpRequest × ToolResult :=
  let req := (serverClient key).postCommentRequest postId text
  let commentId := RedditAPIClient.postCommentResult o
  (req,
    { text :=
        if truthy commentId then
          "Successfully posted comment on post " ++ postId ++ ". Comment ID: "
            ++ jsToString commentId
        else "Failed to post comment on post " ++ postId,
      isError := some (!truthy commentId) })

/-- Handler of the `get_hot_posts` tool. -/
def get_hot_posts (key subreddit : String) (limit : Option Int)
    (o : HttpOutcome) : HttpRequest × ToolResult :=
  ((serverClient key).getHotPostsRequest subreddit (limit.getD 25),
    match RedditAPIClient.getHotPostsResult o with
    | Except.ok posts => { text := jsonStringify posts, isError := none }
    | Except.error e =>
        { text := "Error fetching hot posts: " ++ e, isError := some true })

/-- Handler of the `get_new_posts` tool. -/
def get_new_posts (key subreddit : String) (limit : Option Int)
    (o : HttpOutcome) : HttpRequest × ToolResult :=
  ((serverClient key).getNewPostsRequest subreddit (limit.getD 25),
    match RedditAPIClient.getNewPostsResult o with
    | Except.ok posts => { text := jsonStringify posts, isError := none }
    | Except.error e =>
        { text := "Error fetching new posts: " ++ e, isError := some true })

/-- Handler of the `get_rising_posts` tool. -/
def get_rising_posts (key subreddit : String) (limit : Option Int)
    (o : HttpOutcome) : HttpRequest × ToolResult :=
  ((serverClient key).getRisingPostsRequest subreddit (limit.getD 25),
    match RedditAPIClient.getRisingPostsResult o with
    | Except.ok posts => { text := jsonStringify posts, isError := none }
    | Except.error e =>
        { text := "Error fetching rising posts: " ++ e, isError := some true })

/-- The limit a request carries to the backend: the `limit` query
parameter of a GET request, or the `limit` field of a POST body. -/
def HttpRequest.limitSent (r : HttpRequest) : Option Json :=
  match (r.params.lookup "limit").join with
  | some v => some v
  | none =>
      match r.body with
      | some (Json.obj kvs) => kvs.lookup "limit"
      | _ => none

/-- Shape of the one outbound GET request an invocation issues:
method, fixed base URL, path, query parameters, no body, and the
`Authorization: Bearer` header from the configuration credential. -/
def sendsGet (r : HttpRequest) (key path : String)
    (params : List (String × Option Json)) : Prop :=
  r.method = Method.get ∧ r.baseURL = serverBaseURL ∧ r.path = path ∧
    r.params = params ∧ r.body = none ∧
    ("Authorization", "Bearer " ++ key) ∈ r.headers

/-- Shape of the one outbound POST request an invocation issues:
method, fixed base URL, path, JSON body, no query parameters, and the
`Authorization: Bearer` header from the configuration credential. -/
def sendsPost (r : HttpRequest) (key path : String) (body : Json) : Prop :=
  r.method = Method.post ∧ r.baseURL = serverBaseURL ∧ r.path = path ∧
    r.params = [] ∧ r.body = some body ∧
    ("Authorization", "Bearer " ++ key) ∈ r.headers

/-- C1: every invocation of a limit-taking operation (`get_user_posts`,
`get_user_comments`, `get_hot_posts`, `get_new_posts`,
`get_rising_posts`) with a limit argument in the valid range [1,100]
sends exactly that limit to the backend, and every invocation with the
limit omitted sends 25. -/
theorem C1_limit_forwarding (key subreddit : String) (username : Option String)
    (l : Int) (o : HttpOutcome) (h1 : 1 ≤ l) (h2 : l ≤ 100) :
    (get_user_posts key username (some l) o).1.limitSent = some (Json.num l) ∧
    (get_user_posts key username none o).1.limitSent = some (Json.num 25) ∧
    (get_user_comments key username (some l) o).1.limitSent = some (Json.num l) ∧
    (get_user_comments key username none o).1.limitSent = some (Json.num 25) ∧
    (get_hot_posts key subreddit (some l) o).1.limitSent = some (Json.num l) ∧
    (get_hot_posts key subreddit none o).1.limitSent = some (Json.num 25) ∧
    (get_new_posts key subreddit (some l) o).1.limitSent = some (Json.num l) ∧
    (get_new_posts key subreddit none o).1.limitSent = some (Json.num 25) ∧
    (get_rising_posts key subreddit (some l) o).1.limitSent = some (Json.num l) ∧
    (get_rising_posts key subreddit none o).1.limitSent = some (Json.num 25) :=
  ⟨rfl, rfl, rfl, rfl, rfl, rfl, rfl, rfl, rfl, rfl⟩

/-- Witness for C1 at the concrete limit 10. -/
theorem C1_limit_forwarding_witness :
    (get_user_posts "k" (some "alice") (some 10) (HttpOutcome.transportError "boom")).1.limitSent = some (Json.num 10) ∧
    (get_user_posts "k" (some "alice") none (HttpOutcome.transportError "boom")).1.limitSent = some (Json.num 25) ∧
    (get_user_comments "k" (some "alice") (some 10) (HttpOutcome.transportError "boom")).1.limitSent = some (Json.num 10) ∧
    (get_user_comments "k" (some "alice") none (HttpOutcome.transportError "boom")).1.limitSent = some (Json.num 25) ∧
    (get_hot_posts "k" "programming" (some 10) (HttpOutcome.transportError "boom")).1.limitSent = some (Json.num 10) ∧
    (get_hot_posts "k" "programming" none (HttpOutcome.transportError "boom")).1.limitSent = some (Json.num 25) ∧
    (get_new_posts "k" "programming" (some 10) (HttpOutcome.transportError "boom")).1.limitSent = some (Json.num 10) ∧
    (get_new_posts "k" "programming" none (HttpOutcome.transportError "boom")).1.limitSent = some (Json.num 25) ∧
    (get_rising_posts "k" "programming" (some 10) (HttpOutcome.transportError "boom")).1.limitSent = some (Json.num 10) ∧
    (get_rising_posts "k" "programming" none (HttpOutcome.transportError "boom")).1.limitSent = some (Json.num 25) :=
  C1_limit_forwarding "k" "programming" (some "alice") 10
    (HttpOutcome.transportError "boom") (by decide) (by decide)

/-- C5: every invocation of each of the nine operations issues exactly
one outbound request (built once per invocation by construction of the
embedding), to the fixed base URL, with the method and path fixed per
operation — GET for user-posts, user-comments, post-comments with
query parameters and POST for hide-comment, reply-comment,
post-comment, hot-posts, new-posts, rising-posts with a JSON body —
and every request carries `Authorization: Bearer` of the single
configuration credential. -/
theorem C5_single_request_contract (key postId commentId body subreddit : String)
    (username osubreddit : Option String) (limit : Option Int) (o : HttpOutcome) :
    sendsGet (get_user_posts key username limit o).1 key "/api/reddit/mcp/user-posts"
      [("username", username.map Json.str), ("limit", some (Json.num (limit.getD 25)))] ∧
    sendsGet (get_user_comments key username limit o).1 key "/api/reddit/mcp/user-comments"
      [("username", username.map Json.str), ("limit", some (Json.num (limit.getD 25)))] ∧
    sendsGet (get_post_comments key postId osubreddit o).1 key "/api/reddit/mcp/post-comments"
      [("postId", some (Json.str postId)), ("subreddit", osubreddit.map Json.str)] ∧
    sendsPost (hide_comment key commentId o).1 key "/api/reddit/mcp/hide-comment"
      (Json.obj [("commentId", Json.str commentId)]) ∧
    sendsPost (reply_to_comment key commentId body o).1 key "/api/reddit/mcp/reply-comment"
      (Json.obj [("commentId", Json.str commentId), ("text", Json.str body)]) ∧
    sendsPost (post_comment key postId body o).1 key "/api/reddit/mcp/post-comment"
      (Json.obj [("postId", Json.str postId), ("text", Json.str body)]) ∧
    sendsPost (get_hot_posts key subreddit limit o).1 key "/api/reddit/mcp/hot-posts"
      (Json.obj [("subreddit", Json.str subreddit), ("limit", Json.num (limit.getD 25))]) ∧
    sendsPost (get_new_posts key subreddit limit o).1 key "/api/reddit/mcp/new-posts"
      (Json.obj [("subreddit", Json.str subreddit), ("limit", Json.num (limit.getD 25))]) ∧
    sendsPost (get_rising_posts key subreddit limit o).1 key "/api/reddit/mcp/rising-posts"
      (Json.obj [("subreddit", Json.str subreddit), ("limit", Json.num (limit.getD 25))]) := by
  refine ⟨⟨rfl, rfl, rfl, rfl, rfl, ?_⟩, ⟨rfl, rfl, rfl, rfl, rfl, ?_⟩,
    ⟨rfl, rfl, rfl, rfl, rfl, ?_⟩, ⟨rfl, rfl, rfl, rfl, rfl, ?_⟩,
    ⟨rfl, rfl, rfl, rfl, rfl, ?_⟩, ⟨rfl, rfl, rfl, rfl, rfl, ?_⟩,
    ⟨rfl, rfl, rfl, rfl, rfl, ?_⟩, ⟨rfl, rfl, rfl, rfl, rfl, ?_⟩,
    ⟨rfl, rfl, rfl, rfl, rfl, ?_⟩⟩ <;> exact List.mem_cons_self _ _

/-- C2: for every `get_*` operation, any exception raised during the
outbound HTTP call (a transport failure or a non-2xx status, i.e. any
`o` on which the awaited call rejects with stringification `e`) yields
a result with `isError := some true` whose text is the failure phrase
of the operation followed by the stringified error — so it contains
both — and the handler consumes the single outcome with no retry and
no suppression. -/
theorem C2_get_errors_surface (key postId subreddit : String)
    (username osubreddit : Option String) (limit : Option Int)
    (o : HttpOutcome) (e : String) (h : axiosRun o = Except.error e) :
    (get_user_posts key username limit o).2 =
      { text := "Error fetching user posts: " ++ e, isError := some true } ∧
    (get_user_comments key username limit o).2 =
      { text := "Error fetching user comments: " ++ e, isError := some true } ∧
    (get_post_comments key postId osubreddit o).2 =
      { text := "Error fetching post comments: " ++ e, isError := some true } ∧
    (get_hot_posts key subreddit limit o).2 =
      { text := "Error fetching hot posts: " ++ e, isError := some true } ∧
    (get_new_posts key subreddit limit o).2 =
      { text := "Error fetching new posts: " ++ e, isError := some true } ∧
    (get_rising_posts key subreddit limit o).2 =
      { text := "Error fetching rising posts: " ++ e, isError := some true } := by
  simp [get_user_posts, get_user_comments, get_post_comments, get_hot_posts,
    get_new_posts, get_rising_posts, RedditAPIClient.getUserPostsResult,
    RedditAPIClient.getUserCommentsResult, RedditAPIClient.getPostCommentsResult,
    RedditAPIClient.getHotPostsResult, RedditAPIClient.getNewPostsResult,
    RedditAPIClient.getRisingPostsResult, h]

/-- Witness for C2 at a concrete connection-refused transport error. -/
theorem C2_get_errors_surface_witness :
    (get_user_posts "k" (some "alice") (some 10)
        (HttpOutcome.transportError "Error: connect ECONNREFUSED")).2 =
      { text := "Error fetching user posts: " ++ "Error: connect ECONNREFUSED",
        isError := some true } ∧
    (get_user_comments "k" (some "alice") (some 10)
        (HttpOutcome.transportError "Error: connect ECONNREFUSED")).2 =
      { text := "Error fetching user comments: " ++ "Error: connect ECONNREFUSED",
        isError := some true } ∧
    (get_post_comments "k" "p1" (some "news")
        (HttpOutcome.transportError "Error: connect ECONNREFUSED")).2 =
      { text := "Error fetching post comments: " ++ "Error: connect ECONNREFUSED",
        isError := some true } ∧
    (get_hot_posts "k" "programming" (some 10)
        (HttpOutcome.transportError "Error: connect ECONNREFUSED")).2 =
      { text := "Error fetching hot posts: " ++ "Error: connect ECONNREFUSED",
        isError := some true } ∧
    (get_new_posts "k" "programming" (some 10)
        (HttpOutcome.transportError "Error: connect ECONNREFUSED")).2 =
      { text := "Error fetching new posts: " ++ "Error: connect ECONNREFUSED",
        isError := some true } ∧
    (get_rising_posts "k" "programming" (some 10)
        (HttpOutcome.transportError "Error: connect ECONNREFUSED")).2 =
      { text := "Error fetching rising posts: " ++ "Error: connect ECONNREFUSED",
        isError := some true } :=
  C2_get_errors_surface "k" "p1" "programming" (some "alice") (some "news") (some 10)
    (HttpOutcome.transportError "Error: connect ECONNREFUSED")
    "Error: connect ECONNREFUSED" rfl

/-- C3: for `hide_comment`, `reply_to_comment` and `post_comment`, any
failure of the outbound call is caught in the client layer — the
client methods are total (they never raise, as their plain `Bool` and
`Json` return types exhibit) and map every rejection to the negative
sentinel `false` / `null` — and the tool layer turns that sentinel
into an `isError` result whose text is a fixed phrase of the ids only:
it does not depend on the exception `e`, so the original exception
detail is not forwarded. -/
theorem C3_mutations_swallow_errors (key commentId postId body : String)
    (o : HttpOutcome) (e : String) (h : axiosRun o = Except.error e) :
    RedditAPIClient.hideCommentResult o = false ∧
    RedditAPIClient.replyToCommentResult o = Json.null ∧
    RedditAPIClient.postCommentResult o = Json.null ∧
    (hide_comment key commentId o).2 =
      { text := "Failed to hide comment " ++ commentId, isError := some true } ∧
    (reply_to_comment key commentId body o).2 =
      { text := "Failed to reply to comment " ++ commentId, isError := some true } ∧
    (post_comment key postId body o).2 =
      { text := "Failed to post comment on post " ++ postId, isError := some true } := by
  simp [RedditAPIClient.hideCommentResult, RedditAPIClient.replyToCommentResult,
    RedditAPIClient.postCommentResult, hide_comment, reply_to_comment, post_comment,
    truthy, h]

/-- Witness for C3 at a concrete 503 response. -/
theorem C3_mutations_swallow_errors_witness :
    RedditAPIClient.hideCommentResult (HttpOutcome.response 503 Json.null) = false ∧
    RedditAPIClient.replyToCommentResult (HttpOutcome.response 503 Json.null) = Json.null ∧
    RedditAPIClient.postCommentResult (HttpOutcome.response 503 Json.null) = Json.null ∧
    (hide_comment "k" "c1" (HttpOutcome.response 503 Json.null)).2 =
      { text := "Failed to hide comment " ++ "c1", isError := some true } ∧
    (reply_to_comment "k" "c1" "hello" (HttpOutcome.response 503 Json.null)).2 =
      { text := "Failed to reply to comment " ++ "c1", isError := some true } ∧
    (post_comment "k" "p1" "hello" (HttpOutcome.response 503 Json.null)).2 =
      { text := "Failed to post comment on post " ++ "p1", isError := some true } :=
  C3_mutations_swallow_errors "k" "c1" "p1" "hello"
    (HttpOutcome.response 503 Json.null) (axiosErrorString 503) rfl

/-- C4: `hide_comment` on comment abc123 returns
"Successfully hid comment abc123" with `isError := some false` when
the backend responds 200, and "Failed to hide comment abc123" with
`isError := some true` when it responds 500; neither the stringified
axios error for status 500 nor the error body of the server occurs in
that text. -/
theorem C4_hide_comment_200_vs_500 :
    (hide_comment "k" "abc123" (HttpOutcome.response 200 Json.null)).2 =
      { text := "Successfully hid comment abc123", isError := some false } ∧
    (hide_comment "k" "abc123"
        (HttpOutcome.response 500 (Json.str "Internal Server Error"))).2 =
      { text := "Failed to hide comment abc123", isError := some true } ∧
    ¬ ((axiosErrorString 500).data <:+:
        (hide_comment "k" "abc123"
          (HttpOutcome.response 500 (Json.str "Internal Server Error"))).2.text.data) ∧
    ¬ ("Internal Server Error".data <:+:
        (hide_comment "k" "abc123"
          (HttpOutcome.response 500 (Json.str "Internal Server Error"))).2.text.data) := by
  refine ⟨rfl, rfl, ?_, ?_⟩ <;> decide

example : jsonStringify (Json.arr []) = "[]" := rfl

example : jsonStringify (Json.arr [Json.num 1, Json.num 2]) = "[\n  1,\n  2\n]" := rfl

example :
    jsonStringify (Json.obj [("a", Json.arr [Json.num 1]), ("b", Json.str "x")])
      = "\x7b\n  \"a\": [\n    1\n  ],\n  \"b\": \"x\"\n\x7d" := by decide

example : jsToString (Json.arr [Json.str "r9", Json.null, Json.num 3]) = "r9,,3" := rfl

/-- A possibly-absent field all of whose values are falsy is replaced
by the default under `x || d`. -/
theorem jsOrElse_of_falsy (o : Option Json) (d : Json)
    (h : (o.all fun v => !truthy v) = true) : jsOrElse o d = d := by
  cases o with
  | none => rfl
  | some v =>
      simp only [Option.all_some, Bool.not_eq_true'] at h
      simp [jsOrElse, h]

/-- C6: `get_user_posts` on user alice against a backend that responds
2xx with a 3-element array returns a result whose single text block is
exactly the pretty-printed 2-space-indented JSON serialization of that
array (`JSON.stringify(posts, null, 2)`), with `isError` unset. -/
theorem C6_get_user_posts_passthrough (key : String) (username : Option String)
    (limit : Option Int) (p1 p2 p3 : Json) (status : Nat)
    (h1 : 200 ≤ status) (h2 : status < 300) :
    (get_user_posts key username limit
        (HttpOutcome.response status (Json.arr [p1, p2, p3]))).2 =
      { text := jsonStringify (Json.arr [p1, p2, p3]), isError := none } := by
  simp [get_user_posts, RedditAPIClient.getUserPostsResult, axiosRun, h1, h2]

/-- Witness for C6 at `get_user_posts("alice", 10)` and three concrete
posts. -/
theorem C6_get_user_posts_passthrough_witness :
    (get_user_posts "k" (some "alice") (some 10)
        (HttpOutcome.response 200 (Json.arr [Json.obj [("id", Json.str "a")],
          Json.obj [("id", Json.str "b")], Json.obj [("id", Json.str "c")]]))).2 =
      { text := jsonStringify (Json.arr [Json.obj [("id", Json.str "a")],
          Json.obj [("id", Json.str "b")], Json.obj [("id", Json.str "c")]]),
        isError := none } :=
  C6_get_user_posts_passthrough "k" (some "alice") (some 10)
    (Json.obj [("id", Json.str "a")]) (Json.obj [("id", Json.str "b")])
    (Json.obj [("id", Json.str "c")]) 200 (by decide) (by decide)

/-- C7: `reply_to_comment("c1", "hello")` against a backend that
responds 200 with body containing `replyId = "r9"` returns
`isError := some false` and a text containing both "c1" and "r9". -/
theorem C7_reply_to_comment_success :
    (reply_to_comment "k" "c1" "hello"
        (HttpOutcome.response 200 (Json.obj [("replyId", Json.str "r9")]))).2 =
      { text := "Successfully replied to comment c1. Reply ID: r9",
        isError := some false } ∧
    "c1".data <:+: (reply_to_comment "k" "c1" "hello"
        (HttpOutcome.response 200 (Json.obj [("replyId", Json.str "r9")]))).2.text.data ∧
    "r9".data <:+: (reply_to_comment "k" "c1" "hello"
        (HttpOutcome.response 200 (Json.obj [("replyId", Json.str "r9")]))).2.text.data := by
  refine ⟨rfl, ?_, ?_⟩ <;> decide

/-- C8: `get_hot_posts("programming", 5)` against a backend that
responds 200 with body having an empty `posts` array returns the JSON
serialization of the empty array with `isError` unset: an empty list
is a success, not an error. -/
theorem C8_get_hot_posts_empty :
    (get_hot_posts "k" "programming" (some 5)
        (HttpOutcome.response 200 (Json.obj [("posts", Json.arr [])]))).2 =
      { text := "[]", isError := none } ∧
    jsonStringify (Json.arr []) = "[]" :=
  ⟨rfl, rfl⟩

/-- C9: for `get_hot_posts`, `get_new_posts` and `get_rising_posts`, a
2xx backend response whose object body lacks the `posts` field or
carries a falsy value there yields a success result serializing the
empty list, with `isError` unset, rather than an error result. -/
theorem C9_missing_posts_field_is_empty_success (key subreddit : String)
    (limit : Option Int) (status : Nat) (kvs : List (String × Json))
    (h1 : 200 ≤ status) (h2 : status < 300)
    (h3 : ((kvs.lookup "posts").all fun v => !truthy v) = true) :
    (get_hot_posts key subreddit limit
        (HttpOutcome.response status (Json.obj kvs))).2 =
      { text := "[]", isError := none } ∧
    (get_new_posts key subreddit limit
        (HttpOutcome.response status (Json.obj kvs))).2 =
      { text := "[]", isError := none } ∧
    (get_rising_posts key subreddit limit
        (HttpOutcome.response status (Json.obj kvs))).2 =
      { text := "[]", isError := none } := by
  have hor := jsOrElse_of_falsy (kvs.lookup "posts") (Json.arr []) h3
  refine ⟨?_, ?_, ?_⟩ <;>
    simp [get_hot_posts, get_new_posts, get_rising_posts,
      RedditAPIClient.getHotPostsResult, RedditAPIClient.getNewPostsResult,
      RedditAPIClient.getRisingPostsResult, axiosRun, h1, h2, jsFieldAccess, hor,
      jsonStringify, stringifyGo]

/-- Witness for C9 at a body whose `posts` field is absent and one
where it is `null`. -/
theorem C9_missing_posts_field_is_empty_success_witness :
    (get_hot_posts "k" "programming" (some 5)
        (HttpOutcome.response 200 (Json.obj [("posts", Json.null)]))).2 =
      { text := "[]", isError := none } ∧
    (get_new_posts "k" "programming" (some 5)
        (HttpOutcome.response 200 (Json.obj [("posts", Json.null)]))).2 =
      { text := "[]", isError := none } ∧
    (get_rising_posts "k" "programming" (some 5)
        (HttpOutcome.response 200 (Json.obj [("posts", Json.null)]))).2 =
      { text := "[]", isError := none } :=
  C9_missing_posts_field_is_empty_success "k" "programming" (some 5) 200
    [("posts", Json.null)] (by decide) (by decide) (by decide)

/-- C10: for `reply_to_comment` and `post_comment`, a 2xx backend
response whose `replyId` / `commentId` field is absent or falsy (null,
empty string, 0, false) is collapsed to the failure outcome:
`isError := some true` with the "Failed to ..." message, so even a
backend-issued empty-string id is reported as failure. -/
theorem C10_falsy_id_reported_as_failure (key commentId postId body : String)
    (status : Nat) (kvs1 kvs2 : List (String × Json))
    (h1 : 200 ≤ status) (h2 : status < 300)
    (h3 : ((kvs1.lookup "replyId").all fun v => !truthy v) = true)
    (h4 : ((kvs2.lookup "commentId").all fun v => !truthy v) = true) :
    (reply_to_comment key commentId body
        (HttpOutcome.response status (Json.obj kvs1))).2 =
      { text := "Failed to reply to comment " ++ commentId, isError := some true } ∧
    (post_comment key postId body
        (HttpOutcome.response status (Json.obj kvs2))).2 =
      { text := "Failed to post comment on post " ++ postId, isError := some true } := by
  have hr := jsOrElse_of_falsy (kvs1.lookup "replyId") Json.null h3
  have hp := jsOrElse_of_falsy (kvs2.lookup "commentId") Json.null h4
  constructor <;>
    simp [reply_to_comment, post_comment, RedditAPIClient.replyToCommentResult,
      RedditAPIClient.postCommentResult, axiosRun, h1, h2, jsFieldAccess, hr, hp, truthy]

/-- Witness for C10 at a backend-issued empty-string `replyId` and an
absent `commentId`. -/
theorem C10_falsy_id_reported_as_failure_witness :
    (reply_to_comment "k" "c1" "hello"
        (HttpOutcome.response 200 (Json.obj [("replyId", Json.str "")]))).2 =
      { text := "Failed to reply to comment " ++ "c1", isError := some true } ∧
    (post_comment "k" "p1" "hello"
        (HttpOutcome.response 200 (Json.obj [("ok", Json.bool true)]))).2 =
      { text := "Failed to post comment on post " ++ "p1", isError := some true } :=
  C10_falsy_id_reported_as_failure "k" "c1" "p1" "hello" 200
    [("replyId", Json.str "")] [("ok", Json.bool true)]
    (by decide) (by decide) (by decide) (by decide)

end RedditUserMcp
